import Mathlib

/-!
Verification of the review-scraper specification against `src/code.py`.

The Python program is embedded shallowly:

* Python `datetime.date` values become the `Date` structure with the same
  lexicographic ordering.
* `datetime.strptime` for the three formats used by `in_range`
  (`"%B %d, %Y"`, `"%b %d, %Y"`, `"%Y-%m-%d"`) is modelled character by
  character after CPython's `_strptime` regex fragments
  (`%d ↦ 3[01]|[12]\d|0[1-9]|[1-9]`, `%m ↦ 1[0-2]|0[1-9]|[1-9]`,
  `%Y ↦ \d\d\d\d`, whitespace in the format ↦ `\s+`, month names matched
  case-insensitively, the whole string must be consumed) followed by the
  `datetime.date` range validation.
* HTTP and HTML are external collaborators: `requests.get` is a function
  from the request URL to an abstract page (status code plus the list of
  review cards the site-specific CSS selector would produce), and each
  card records the text of the sub-elements the extractor looks up, with
  `Option` for an element or attribute that is absent.
* Python floats carry no arithmetic here (they are parsed, defaulted to
  0.0 and serialized), so ratings are modelled as exact rationals `ℚ`,
  with `pyFloat` modelling the `float(...)` builtin on decimal literals.
* The unbounded `while True` pagination loops take an explicit fuel
  argument; `Outcome.running` means the fuel ran out with the loop still
  going, `Outcome.error` models an uncaught Python exception.
-/

namespace ReviewScraper

/-- A calendar date, as produced by Python's `datetime.date`. -/
structure Date where
  year : Nat
  month : Nat
  day : Nat
deriving DecidableEq

/-- Python `date` ordering (used by `start_d <= d <= end_d` in `in_range`):
lexicographic on (year, month, day). -/
def Date.le (a b : Date) : Bool :=
  Nat.blt a.year b.year ||
    (a.year == b.year && (Nat.blt a.month b.month ||
      (a.month == b.month && Nat.ble a.day b.day)))

/-- Python whitespace as recognised by `str.strip()` and the regex `\s`
(ASCII range; the claims never involve non-ASCII whitespace). -/
def isPySpace (c : Char) : Bool :=
  c == ' ' || c == '\t' || c == '\n' || c == '\r' || c == '\x0b' || c == '\x0c'

/-- `str.strip()` on a character list. -/
def pyStripChars (cs : List Char) : List Char :=
  ((cs.dropWhile isPySpace).reverse.dropWhile isPySpace).reverse

/-- Python `str.strip()`. -/
def pyStrip (s : String) : String :=
  String.mk (pyStripChars s.data)

/-- Python `str.lower()` (ASCII model; all mapping keys and examples in the
program are ASCII). -/
def pyLower (s : String) : String :=
  String.mk (s.data.map Char.toLower)

/-- Numeric value of a digit character. -/
def digitVal (c : Char) : Nat := c.toNat - 48

/-- Gregorian leap-year rule used by `datetime`. -/
def isLeap (y : Nat) : Bool :=
  (y % 4 == 0 && y % 100 != 0) || y % 400 == 0

/-- Number of days in a month, as validated by `datetime.date`. -/
def daysInMonth (y m : Nat) : Nat :=
  if m == 2 then (if isLeap y then 29 else 28)
  else if m == 4 || m == 6 || m == 9 || m == 11 then 30
  else 31

/-- `datetime.date(y, m, d)` construction; `none` models the `ValueError`
raised on out-of-range components (year 1..9999, month 1..12, day bounded
by the month length). -/
def mkValidDate (y m d : Nat) : Option Date :=
  if 1 ≤ y ∧ y ≤ 9999 ∧ 1 ≤ m ∧ m ≤ 12 ∧ 1 ≤ d ∧ d ≤ daysInMonth y m then
    some ⟨y, m, d⟩
  else none

/-- Case-insensitive removal of the (lowercase) pattern `ps` from the head
of `cs`; models one alternative of strptime's month-name alternation, whose
regex is compiled with IGNORECASE. -/
def dropCI : List Char → List Char → Option (List Char)
  | [], cs => some cs
  | _ :: _, [] => none
  | p :: ps, c :: cs => if c.toLower == p then dropCI ps cs else none

/-- C-locale full month names, strptime's `%B` directive. -/
def monthFull : List (String × Nat) :=
  [("january", 1), ("february", 2), ("march", 3), ("april", 4), ("may", 5),
   ("june", 6), ("july", 7), ("august", 8), ("september", 9), ("october", 10),
   ("november", 11), ("december", 12)]

/-- C-locale abbreviated month names, strptime's `%b` directive. -/
def monthAbbr : List (String × Nat) :=
  [("jan", 1), ("feb", 2), ("mar", 3), ("apr", 4), ("may", 5), ("jun", 6),
   ("jul", 7), ("aug", 8), ("sep", 9), ("oct", 10), ("nov", 11), ("dec", 12)]

/-- All ways the month-name alternation can match a prefix of `cs`
(no month name is a prefix of another, but trying every alternative keeps
the regex backtracking semantics exact). -/
def monthNameMatches (names : List (String × Nat)) (cs : List Char) :
    List (Nat × List Char) :=
  names.filterMap fun nv => (dropCI nv.1.data cs).map fun rest => (nv.2, rest)

/-- strptime's `%d` pattern `3[01]|[12]\d|0[1-9]|[1-9]`: the candidate
matches in regex alternation order, so that a failing continuation can
backtrack to the next alternative. -/
def dayMatches : List Char → List (Nat × List Char)
  | c1 :: c2 :: rest =>
    (if c1 == '3' && (c2 == '0' || c2 == '1') then [(30 + digitVal c2, rest)] else []) ++
    (if (c1 == '1' || c1 == '2') && c2.isDigit then [(10 * digitVal c1 + digitVal c2, rest)] else []) ++
    (if c1 == '0' && c2.isDigit && c2 != '0' then [(digitVal c2, rest)] else []) ++
    (if c1.isDigit && c1 != '0' then [(digitVal c1, c2 :: rest)] else [])
  | [c1] => if c1.isDigit && c1 != '0' then [(digitVal c1, [])] else []
  | [] => []

/-- strptime's `%m` pattern `1[0-2]|0[1-9]|[1-9]`. -/
def monthMatches : List Char → List (Nat × List Char)
  | c1 :: c2 :: rest =>
    (if c1 == '1' && (c2 == '0' || c2 == '1' || c2 == '2') then [(10 + digitVal c2, rest)] else []) ++
    (if c1 == '0' && c2.isDigit && c2 != '0' then [(digitVal c2, rest)] else []) ++
    (if c1.isDigit && c1 != '0' then [(digitVal c1, c2 :: rest)] else [])
  | [c1] => if c1.isDigit && c1 != '0' then [(digitVal c1, [])] else []
  | [] => []

/-- strptime's `%Y` pattern: exactly four digits. -/
def yearMatch : List Char → Option (Nat × List Char)
  | a :: b :: c :: d :: rest =>
    if a.isDigit && b.isDigit && c.isDigit && d.isDigit then
      some (1000 * digitVal a + 100 * digitVal b + 10 * digitVal c + digitVal d, rest)
    else none
  | _ => none

/-- `\s+` in the compiled strptime regex (whitespace in the format string is
replaced by `\s+`): at least one whitespace character, matched greedily. -/
def wsMatch : List Char → Option (List Char)
  | c :: rest => if isPySpace c then some (rest.dropWhile isPySpace) else none
  | [] => none

/-- A literal (escaped) character in the strptime regex. -/
def litMatch (ch : Char) : List Char → Option (List Char)
  | c :: rest => if c == ch then some rest else none
  | [] => none

/-- `datetime.strptime(s.strip(), "%B %d, %Y").date()` (with `%b` when
`names = monthAbbr`): `none` models the `ValueError` raised either because
the regex does not match the entire string or because `datetime` rejects
the matched components (e.g. day 30 in February). -/
def strptimeMonthName (names : List (String × Nat)) (s : String) : Option Date :=
  let cs := pyStripChars s.data
  (monthNameMatches names cs).findSome? fun mr =>
    (wsMatch mr.2).bind fun r2 =>
    (dayMatches r2).findSome? fun dr =>
    (litMatch ',' dr.2).bind fun r4 =>
    (wsMatch r4).bind fun r5 =>
    (yearMatch r5).bind fun yr =>
    if yr.2 == [] then mkValidDate yr.1 mr.1 dr.1 else none

/-- `datetime.strptime(s.strip(), "%Y-%m-%d").date()`. -/
def strptimeIso (s : String) : Option Date :=
  let cs := pyStripChars s.data
  (yearMatch cs).bind fun yr =>
  (litMatch '-' yr.2).bind fun r2 =>
  (monthMatches r2).findSome? fun mr =>
  (litMatch '-' mr.2).bind fun r3 =>
  (dayMatches r3).findSome? fun dr =>
  if dr.2 == [] then mkValidDate yr.1 mr.1 dr.1 else none

/-- The date the `in_range` format cascade extracts from `date_str`: the
three formats are tried in the order of the source's tuple and the first
that parses wins (a later format is tried exactly when the earlier attempt
raised `ValueError`, i.e. returned `none` here). -/
def parse_date (date_str : String) : Option Date :=
  match strptimeMonthName monthFull date_str with
  | some d => some d
  | none =>
    match strptimeMonthName monthAbbr date_str with
    | some d => some d
    | none => strptimeIso date_str

/-- `in_range` from `src/code.py` lines 46-54: parse `date_str` with the
first supported format that succeeds and test `start_d <= d <= end_d`;
return `True` (keep the review) when no format parses. -/
def in_range (date_str : String) (start_d end_d : Date) : Bool :=
  match parse_date date_str with
  | some d => Date.le start_d d && Date.le d end_d
  | none => true

/-- The `Review` dataclass (lines 12-20). Ratings are Python floats that
are only parsed, defaulted and serialized (never computed with), so they
are modelled as exact rationals. -/
structure Review where
  title : String
  date : String
  rating : ℚ
  reviewer_name : String
  review_text : String
  source : String
  company : String
deriving DecidableEq

/-- Consume a maximal run of digits: value so far, number of digits
consumed, rest of the input. -/
def takeDigits : List Char → Nat → Nat → Nat × Nat × List Char
  | c :: rest, acc, n =>
    if c.isDigit then takeDigits rest (10 * acc + digitVal c) (n + 1)
    else (acc, n, c :: rest)
  | [], acc, n => (acc, n, [])

/-- Mantissa of a decimal literal: integer digits, optionally a point with
fractional digits; at least one digit overall. -/
def pyFloatMantissa (cs : List Char) : Option (ℚ × List Char) :=
  let ir := takeDigits cs 0 0
  match ir.2.2 with
  | '.' :: r =>
    let fr := takeDigits r 0 0
    if ir.2.1 + fr.2.1 == 0 then none
    else some ((ir.1 : ℚ) + (fr.1 : ℚ) / (10 : ℚ) ^ fr.2.1, fr.2.2)
  | _ => if ir.2.1 == 0 then none else some ((ir.1 : ℚ), ir.2.2)

/-- Optional exponent of a decimal literal: `some (e, rest)` with `e = 0`
when no `e`/`E` marker is present, `none` when a marker is present but not
followed by digits (which invalidates the whole literal). -/
def pyFloatExpPart (cs : List Char) : Option (Int × List Char) :=
  match cs with
  | c :: r =>
    if c == 'e' || c == 'E' then
      let sr : Int × List Char :=
        match r with
        | '+' :: t => (1, t)
        | '-' :: t => (-1, t)
        | t => (1, t)
      let er := takeDigits sr.2 0 0
      if er.2.1 == 0 then none else some (sr.1 * (er.1 : Int), er.2.2)
    else some (0, cs)
  | [] => some (0, [])

/-- The Python builtin `float(s)` on finite decimal literals: optional
surrounding whitespace, optional sign, digits with optional fraction and
exponent, the whole string consumed. (The `inf`/`nan` spellings have no
`ℚ` value and digit-group underscores never occur in the program's data;
every claim distinguishes only parse success from failure.) -/
def pyFloat (s : String) : Option ℚ :=
  let cs0 := pyStripChars s.data
  let sp : ℚ × List Char :=
    match cs0 with
    | '+' :: r => (1, r)
    | '-' :: r => (-1, r)
    | r => (1, r)
  match pyFloatMantissa sp.2 with
  | none => none
  | some mr =>
    match pyFloatExpPart mr.2 with
    | none => none
    | some er =>
      if er.2 == [] then some (sp.1 * mr.1 * (10 : ℚ) ^ er.1) else none

/-- Result of running a scraper with a given amount of fuel. `running`
means the fuel was exhausted with the `while True` loop still going;
`error` models an uncaught Python exception aborting the run. -/
inductive Outcome (α : Type) where
  | ok (val : α)
  | error (msg : String)
  | running
deriving DecidableEq

/-- `build_g2_url` (lines 65-67). -/
def build_g2_url (product_slug : String) (page : Nat) : String :=
  "https://www.g2.com/products/" ++ product_slug ++ "/reviews?page=" ++ toString page

/-- `build_capterra_url` (lines 141-144): page 1 is the bare reviews URL,
every later page appends the `?page=` query string. -/
def build_capterra_url (product_path : String) (page : Nat) : String :=
  let base := "https://www.capterra.com/p/" ++ product_path ++ "/reviews/"
  if page == 1 then base else base ++ "?page=" ++ toString page

/-- `base_url` computed by `scrape_saas_example` (line 221). -/
def saas_base_url (company : String) : String :=
  "https://example-saas-reviews.com/" ++ pyLower company ++ "/reviews?page="

/-- The URL the generic-SaaS loop requests for one page (line 226):
`base_url + str(page)`. -/
def build_saas_url (company : String) (page : Nat) : String :=
  saas_base_url company ++ toString page

/-- `slug_map` of `scrape_g2` (lines 72-74). -/
def g2_slug_map : List (String × String) := [("pulse", "pulse")]

/-- `slug_map` of `scrape_capterra` (lines 149-151). -/
def capterra_slug_map : List (String × String) := [("pulse", "12345/Pulse")]

/-- The tag `card.find("meta", itemprop="ratingValue")` when it exists:
`content` is its `content` attribute, `tag.get("content")`. -/
structure G2Meta where
  content : Option String
deriving DecidableEq

/-- One G2 review card, i.e. one element of
`soup.select(".paper.paper--white.paper--box")`. Each field holds the text
of the sub-element the extractor looks up (`none` when the element is
absent); elements carry a single text node, so `get_text(strip=True)` and
`get_text(" ", strip=True)` are `pyStrip` of the stored text. -/
structure G2Card where
  title_el : Option String
  date_el : Option String
  rating_el : Option G2Meta
  user_el : Option String
  body_el : Option String
deriving DecidableEq

/-- `el.get_text(strip=True) if el else ""`. -/
def optText : Option String → String
  | some t => pyStrip t
  | none => ""

/-- G2 rating extraction (lines 106-112): 0.0 unless the meta tag exists
and its `content` attribute is present and truthy (non-empty), in which
case `float(...)` is tried with 0.0 recovered on `ValueError`. -/
def g2Rating : Option G2Meta → ℚ
  | none => 0
  | some el =>
    match el.content with
    | none => 0
    | some c => if c == "" then 0 else (pyFloat c).getD 0

/-- The `Review` built from one G2 card (loop body lines 99-133, before
the date filter). -/
def g2Review (company : String) (card : G2Card) : Review :=
  { title := optText card.title_el
  , date := optText card.date_el
  , rating := g2Rating card.rating_el
  , reviewer_name := optText card.user_el
  , review_text := optText card.body_el
  , source := "g2"
  , company := company }

/-- The reviews one G2 page contributes: each card in page order, kept when
`in_range` accepts its extracted date text (lines 120-133). -/
def g2PageReviews (company : String) (start_d end_d : Date)
    (cards : List G2Card) : List Review :=
  cards.filterMap fun card =>
    let r := g2Review company card
    if in_range r.date start_d end_d then some r else none

/-- The observable result of `requests.get` on one G2 listing page: the
HTTP status code, and the review cards the G2 selector finds in the body. -/
structure G2Page where
  status_code : Nat
  cards : List G2Card
deriving DecidableEq

/-- The `while True` pagination loop of `scrape_g2` (lines 86-136), with
explicit fuel. `fetch` maps the request URL to the abstract page; the
`time.sleep(1)` delay has no observable effect in this model. -/
def g2Loop (fetch : String → G2Page) (company slug : String)
    (start_d end_d : Date) : Nat → Nat → List Review → Outcome (List Review)
  | 0, _, _ => .running
  | fuel + 1, page, acc =>
    let resp := fetch (build_g2_url slug page)
    if resp.status_code ≠ 200 then .ok acc
    else if resp.cards = [] then .ok acc
    else g2Loop fetch company slug start_d end_d fuel (page + 1)
      (acc ++ g2PageReviews company start_d end_d resp.cards)

/-- `scrape_g2` (lines 70-138): resolve the slug, raising `ValueError`
(modelled as `Outcome.error`) when the company is not configured, then
paginate from page 1 with an empty accumulator. -/
def scrape_g2 (fetch : String → G2Page) (company : String)
    (start_d end_d : Date) (fuel : Nat) : Outcome (List Review) :=
  match g2_slug_map.lookup (pyLower company) with
  | none => .error ("No G2 slug configured for '" ++ company ++
      "'. Update slug_map in scrape_g2().")
  | some slug => g2Loop fetch company slug start_d end_d fuel 1 []

/-- One Capterra review card, an element of
`soup.select("section.review-card")`, with the text of each sub-element
the extractor looks up. -/
structure CapterraCard where
  title_el : Option String
  date_el : Option String
  rating_el : Option String
  user_el : Option String
  body_el : Option String
deriving DecidableEq

/-- Capterra rating extraction (lines 183-187): `float` of the stripped
text when the element exists; 0.0 when the element is absent or `float`
raises `ValueError`. -/
def capterraRating : Option String → ℚ
  | none => 0
  | some t => (pyFloat (pyStrip t)).getD 0

/-- The `Review` built from one Capterra card (lines 176-208, before the
date filter). -/
def capterraReview (company : String) (card : CapterraCard) : Review :=
  { title := optText card.title_el
  , date := optText card.date_el
  , rating := capterraRating card.rating_el
  , reviewer_name := optText card.user_el
  , review_text := optText card.body_el
  , source := "capterra"
  , company := company }

/-- The reviews one Capterra page contributes, in card order. -/
def capterraPageReviews (company : String) (start_d end_d : Date)
    (cards : List CapterraCard) : List Review :=
  cards.filterMap fun card =>
    let r := capterraReview company card
    if in_range r.date start_d end_d then some r else none

/-- The observable result of `requests.get` on one Capterra listing page. -/
structure CapterraPage where
  status_code : Nat
  cards : List CapterraCard
deriving DecidableEq

/-- The `while True` pagination loop of `scrape_capterra` (lines 163-211). -/
def capterraLoop (fetch : String → CapterraPage) (company path : String)
    (start_d end_d : Date) : Nat → Nat → List Review → Outcome (List Review)
  | 0, _, _ => .running
  | fuel + 1, page, acc =>
    let resp := fetch (build_capterra_url path page)
    if resp.status_code ≠ 200 then .ok acc
    else if resp.cards = [] then .ok acc
    else capterraLoop fetch company path start_d end_d fuel (page + 1)
      (acc ++ capterraPageReviews company start_d end_d resp.cards)

/-- `scrape_capterra` (lines 147-213). -/
def scrape_capterra (fetch : String → CapterraPage) (company : String)
    (start_d end_d : Date) (fuel : Nat) : Outcome (List Review) :=
  match capterra_slug_map.lookup (pyLower company) with
  | none => .error ("No Capterra path configured for '" ++ company ++
      "'. Update slug_map in scrape_capterra().")
  | some path => capterraLoop fetch company path start_d end_d fuel 1 []

/-- The `.review-rating` element of a generic-SaaS card when it exists:
`dataScore` is its `data-score` attribute when that is present. -/
structure SaasRatingEl where
  dataScore : Option String
deriving DecidableEq

/-- One generic-SaaS review card, an element of
`soup.select(".review-card")`. -/
structure SaasCard where
  title_el : Option String
  date_el : Option String
  rating_el : Option SaasRatingEl
  reviewer_el : Option String
  body_el : Option String
deriving DecidableEq

/-- Field extraction for one generic-SaaS card (lines 238-242). The
lookups have no null-safety: a missing element raises `AttributeError`
(or `TypeError` for the subscripted rating element), a missing
`data-score` attribute raises `KeyError`, and non-numeric content raises
`ValueError`; none is caught, so the error aborts the whole run. Fields
are evaluated in source order. -/
def saasCardReview (company : String) (card : SaasCard) :
    Except String Review :=
  match card.title_el with
  | none => .error "AttributeError: 'NoneType' object has no attribute 'get_text'"
  | some t =>
    match card.date_el with
    | none => .error "AttributeError: 'NoneType' object has no attribute 'get_text'"
    | some dt =>
      match card.rating_el with
      | none => .error "TypeError: 'NoneType' object is not subscriptable"
      | some rel =>
        match rel.dataScore with
        | none => .error "KeyError: 'data-score'"
        | some sc =>
          match pyFloat sc with
          | none => .error "ValueError: could not convert string to float"
          | some q =>
            match card.reviewer_el with
            | none => .error "AttributeError: 'NoneType' object has no attribute 'get_text'"
            | some rn =>
              match card.body_el with
              | none => .error "AttributeError: 'NoneType' object has no attribute 'get_text'"
              | some bd =>
                .ok { title := pyStrip t
                    , date := pyStrip dt
                    , rating := q
                    , reviewer_name := pyStrip rn
                    , review_text := pyStrip bd
                    , source := "saas"
                    , company := company }

/-- The card loop of one generic-SaaS page: the first uncaught exception
aborts the run; otherwise the date filter keeps cards in page order. -/
def saasPageReviews (company : String) (start_d end_d : Date) :
    List SaasCard → Except String (List Review)
  | [] => .ok []
  | card :: rest =>
    match saasCardReview company card with
    | .error e => .error e
    | .ok r =>
      match saasPageReviews company start_d end_d rest with
      | .error e => .error e
      | .ok rs => .ok (if in_range r.date start_d end_d then r :: rs else rs)

/-- The reviews one generic-SaaS page contributes when all of its cards
extract successfully. -/
def saasPageOk (company : String) (start_d end_d : Date)
    (cards : List SaasCard) : List Review :=
  ((saasPageReviews company start_d end_d cards).toOption).getD []

/-- The observable result of `requests.get` on one generic-SaaS listing
page. -/
structure SaasPage where
  status_code : Nat
  cards : List SaasCard
deriving DecidableEq

/-- The `while True` pagination loop of `scrape_saas_example`
(lines 225-260): like the other two, except that card extraction can
abort the run with an uncaught exception. -/
def saasLoop (fetch : String → SaasPage) (company : String)
    (start_d end_d : Date) : Nat → Nat → List Review → Outcome (List Review)
  | 0, _, _ => .running
  | fuel + 1, page, acc =>
    let resp := fetch (build_saas_url company page)
    if resp.status_code ≠ 200 then .ok acc
    else if resp.cards = [] then .ok acc
    else
      match saasPageReviews company start_d end_d resp.cards with
      | .error e => .error e
      | .ok rs => saasLoop fetch company start_d end_d fuel (page + 1) (acc ++ rs)

/-- `scrape_saas_example` (lines 216-262): no company mapping, the listing
URL embeds the lowercased company directly. -/
def scrape_saas_example (fetch : String → SaasPage) (company : String)
    (start_d end_d : Date) (fuel : Nat) : Outcome (List Review) :=
  saasLoop fetch company start_d end_d fuel 1 []

/-- The G2 loop's stopping test for page `p`: non-success status, or a
success page on which the selector finds no cards. -/
def g2Stop (fetch : String → G2Page) (slug : String) (p : Nat) : Bool :=
  decide ((fetch (build_g2_url slug p)).status_code ≠ 200) ||
    decide ((fetch (build_g2_url slug p)).cards = [])

/-- The Capterra loop's stopping test for page `p`. -/
def capterraStop (fetch : String → CapterraPage) (path : String) (p : Nat) : Bool :=
  decide ((fetch (build_capterra_url path p)).status_code ≠ 200) ||
    decide ((fetch (build_capterra_url path p)).cards = [])

/-- The generic-SaaS loop's stopping test for page `p`. -/
def saasStop (fetch : String → SaasPage) (company : String) (p : Nat) : Bool :=
  decide ((fetch (build_saas_url company p)).status_code ≠ 200) ||
    decide ((fetch (build_saas_url company p)).cards = [])

/-- `g page₀ ++ g (page₀+1) ++ ⋯` over `n` consecutive pages: the reviews
accumulated from pages `page₀ .. page₀+n-1`, in page-then-card order. -/
def pagesConcat (g : Nat → List Review) : Nat → Nat → List Review
  | _, 0 => []
  | page, n + 1 => g page ++ pagesConcat g (page + 1) n

/-- `str.replace(pat, rep)` for a one-character pattern and replacement,
as `write_json` uses it: every occurrence is replaced. -/
def pyReplaceChars (pat rep : Char) : List Char → List Char
  | [] => []
  | c :: cs => (if c == pat then rep else c) :: pyReplaceChars pat rep cs

/-- `company.lower().replace(' ', '_')` style replacement on strings. -/
def pyReplaceChar (s : String) (pat rep : Char) : String :=
  String.mk (pyReplaceChars pat rep s.data)

/-- The output filename computed by `write_json` (line 59). -/
def write_json_fname (company source : String) : String :=
  pyReplaceChar (pyLower company) ' ' '_' ++ "_" ++ source ++ "_reviews.json"

/-- Spec-side restatement of the filename derivation, following the spec's
words: lower-case the company, map each space to an underscore, append
`_<source>_reviews.json`. Compared with `write_json_fname` in C8. -/
def specFilename (company source : String) : String :=
  String.mk ((pyLower company).data.map fun c => if c = ' ' then '_' else c)
    ++ "_" ++ source ++ "_reviews.json"

/-- JSON values: the level at which `json.dump` and a JSON parser
communicate. The byte encoding performed by the standard library is a
trusted inverse pair outside the repository, so serializing then parsing
the output file yields exactly the `JValue` below. -/
inductive JValue where
  | jstr (s : String)
  | jnum (q : ℚ)
  | jarr (elems : List JValue)
  | jobj (fields : List (String × JValue))

/-- `dataclasses.asdict` on a `Review`: the key/value mapping in dataclass
field order. -/
def asdictReview (r : Review) : List (String × JValue) :=
  [("title", .jstr r.title), ("date", .jstr r.date), ("rating", .jnum r.rating),
   ("reviewer_name", .jstr r.reviewer_name), ("review_text", .jstr r.review_text),
   ("source", .jstr r.source), ("company", .jstr r.company)]

/-- The JSON document `write_json` passes to `json.dump` (lines 58-61):
`[asdict(r) for r in reviews]`. -/
def write_json_value (reviews : List Review) : JValue :=
  .jarr (reviews.map fun r => .jobj (asdictReview r))

/-- Spec-side reader: parse one serialized review object back, requiring
exactly the seven specified keys with string/number values. -/
def specReadReview : JValue → Option Review
  | .jobj [("title", .jstr t), ("date", .jstr d), ("rating", .jnum q),
           ("reviewer_name", .jstr rn), ("review_text", .jstr rt),
           ("source", .jstr src), ("company", .jstr co)] =>
    some ⟨t, d, q, rn, rt, src, co⟩
  | _ => none

/-- Spec-side reader for a list of serialized review objects, failing if
any element fails. -/
def specReadList : List JValue → Option (List Review)
  | [] => some []
  | v :: vs =>
    match specReadReview v, specReadList vs with
    | some r, some rs => some (r :: rs)
    | _, _ => none

/-- Spec-side reader for the whole output document: a top-level array of
review objects. -/
def specReadReviews : JValue → Option (List Review)
  | .jarr elems => specReadList elems
  | _ => none

/-! Concrete fixtures used by the witness theorems. -/

/-- A fully populated G2 card. -/
def g2CardEx : G2Card :=
  ⟨some "Great tool", some "January 5, 2024", some ⟨some "4.5"⟩,
   some "Alice", some "Love it"⟩

/-- A G2 card whose rating element is absent. -/
def g2CardNoRating : G2Card :=
  ⟨some "Great tool", some "January 5, 2024", none, some "Alice", some "Love it"⟩

/-- One content page at page 1, then 404s. -/
def g2FetchEx : String → G2Page := fun u =>
  if u == build_g2_url "pulse" 1 then ⟨200, [g2CardEx]⟩ else ⟨404, []⟩

/-- Every request fails. -/
def g2Fetch404 : String → G2Page := fun _ => ⟨404, []⟩

/-- Every request succeeds with one card (pagination never stops). -/
def g2FetchLive : String → G2Page := fun _ => ⟨200, [g2CardEx]⟩

/-- A fully populated Capterra card. -/
def capterraCardEx : CapterraCard :=
  ⟨some "Solid", some "March 3, 2024", some "4.0", some "Bob", some "Good"⟩

/-- A Capterra card with non-numeric rating text. -/
def capterraCardBadRating : CapterraCard :=
  ⟨some "Solid", some "March 3, 2024", some "five stars", some "Bob", some "Good"⟩

/-- One content page at page 1, then 404s. -/
def capterraFetchEx : String → CapterraPage := fun u =>
  if u == build_capterra_url "12345/Pulse" 1 then ⟨200, [capterraCardEx]⟩
  else ⟨404, []⟩

/-- Every request fails. -/
def capterraFetch404 : String → CapterraPage := fun _ => ⟨404, []⟩

/-- Every request succeeds with one card. -/
def capterraFetchLive : String → CapterraPage := fun _ => ⟨200, [capterraCardEx]⟩

/-- A fully populated generic-SaaS card. -/
def saasCardEx : SaasCard :=
  ⟨some "Nice", some "2024-02-02", some ⟨some "4.0"⟩, some "Carol", some "Works"⟩

/-- A generic-SaaS card with every looked-up element missing. -/
def saasCardBad : SaasCard := ⟨none, none, none, none, none⟩

/-- Every request fails. -/
def saasFetch404 : String → SaasPage := fun _ => ⟨404, []⟩

/-- Every request succeeds with one well-formed card. -/
def saasFetchLive : String → SaasPage := fun _ => ⟨200, [saasCardEx]⟩

/-- Page 1 succeeds but carries a card with missing elements; page 2 and
beyond return a non-success status. -/
def saasFetchBad : String → SaasPage := fun u =>
  if u == build_saas_url "Pulse" 1 then ⟨200, [saasCardBad]⟩ else ⟨404, []⟩

/-- If pages `page .. page+n-1` are content pages and page `page+n`
triggers the stopping test, the G2 loop returns the accumulator extended
by those pages' filtered reviews, given more than `n` fuel. -/
theorem g2Loop_reaches (fetch : String → G2Page) (company slug : String)
    (start_d end_d : Date) :
    ∀ (n page fuel : Nat) (acc : List Review),
      (∀ k, k < n → g2Stop fetch slug (page + k) = false) →
      g2Stop fetch slug (page + n) = true →
      n < fuel →
      g2Loop fetch company slug start_d end_d fuel page acc =
        .ok (acc ++ pagesConcat
          (fun p => g2PageReviews company start_d end_d
            (fetch (build_g2_url slug p)).cards) page n) := by
  intro n
  induction n with
  | zero =>
    intro page fuel acc _ hstop hfuel
    obtain ⟨f, rfl⟩ : ∃ f, fuel = f + 1 := ⟨fuel - 1, by omega⟩
    rw [Nat.add_zero] at hstop
    simp only [g2Stop, Bool.or_eq_true, decide_eq_true_eq] at hstop
    simp only [g2Loop, pagesConcat, List.append_nil]
    rcases hstop with h | h
    · rw [if_pos h]
    · by_cases h2 : (fetch (build_g2_url slug page)).status_code ≠ 200
      · rw [if_pos h2]
      · rw [if_neg h2, if_pos h]
  | succ n ih =>
    intro page fuel acc hpre hstop hfuel
    obtain ⟨f, rfl⟩ : ∃ f, fuel = f + 1 := ⟨fuel - 1, by omega⟩
    have h0 := hpre 0 (Nat.succ_pos n)
    rw [Nat.add_zero] at h0
    simp only [g2Stop, Bool.or_eq_false_iff, decide_eq_false_iff_not,
      not_not] at h0
    simp only [g2Loop]
    rw [if_neg (fun hne => hne h0.1), if_neg h0.2]
    rw [ih (page + 1) f _
      (fun k hk => by
        have h := hpre (k + 1) (by omega)
        rwa [show page + (k + 1) = page + 1 + k by omega] at h)
      (by rwa [show page + (n + 1) = page + 1 + n by omega] at hstop)
      (by omega)]
    simp [pagesConcat, List.append_assoc]

/-- If the stopping test never fires, the G2 loop exhausts any fuel. -/
theorem g2Loop_runs (fetch : String → G2Page) (company slug : String)
    (start_d end_d : Date) :
    ∀ (fuel page : Nat) (acc : List Review),
      (∀ k, g2Stop fetch slug (page + k) = false) →
      g2Loop fetch company slug start_d end_d fuel page acc = .running := by
  intro fuel
  induction fuel with
  | zero => intro page acc _; rfl
  | succ f ih =>
    intro page acc h
    have h0 := h 0
    rw [Nat.add_zero] at h0
    simp only [g2Stop, Bool.or_eq_false_iff, decide_eq_false_iff_not,
      not_not] at h0
    simp only [g2Loop]
    rw [if_neg (fun hne => hne h0.1), if_neg h0.2]
    exact ih (page + 1) _ (fun k => by
      have hk := h (k + 1)
      rwa [show page + (k + 1) = page + 1 + k by omega] at hk)

/-- The G2 loop never produces an uncaught exception. -/
theorem g2Loop_ne_error (fetch : String → G2Page) (company slug : String)
    (start_d end_d : Date) :
    ∀ (fuel page : Nat) (acc : List Review) (msg : String),
      g2Loop fetch company slug start_d end_d fuel page acc ≠ .error msg := by
  intro fuel
  induction fuel with
  | zero => intro page acc msg h; exact nomatch h
  | succ f ih =>
    intro page acc msg
    simp only [g2Loop]
    split
    · exact fun h => nomatch h
    · split
      · exact fun h => nomatch h
      · exact ih (page + 1) _ msg

/-- Capterra analogue of `g2Loop_reaches`. -/
theorem capterraLoop_reaches (fetch : String → CapterraPage)
    (company path : String) (start_d end_d : Date) :
    ∀ (n page fuel : Nat) (acc : List Review),
      (∀ k, k < n → capterraStop fetch path (page + k) = false) →
      capterraStop fetch path (page + n) = true →
      n < fuel →
      capterraLoop fetch company path start_d end_d fuel page acc =
        .ok (acc ++ pagesConcat
          (fun p => capterraPageReviews company start_d end_d
            (fetch (build_capterra_url path p)).cards) page n) := by
  intro n
  induction n with
  | zero =>
    intro page fuel acc _ hstop hfuel
    obtain ⟨f, rfl⟩ : ∃ f, fuel = f + 1 := ⟨fuel - 1, by omega⟩
    rw [Nat.add_zero] at hstop
    simp only [capterraStop, Bool.or_eq_true, decide_eq_true_eq] at hstop
    simp only [capterraLoop, pagesConcat, List.append_nil]
    rcases hstop with h | h
    · rw [if_pos h]
    · by_cases h2 : (fetch (build_capterra_url path page)).status_code ≠ 200
      · rw [if_pos h2]
      · rw [if_neg h2, if_pos h]
  | succ n ih =>
    intro page fuel acc hpre hstop hfuel
    obtain ⟨f, rfl⟩ : ∃ f, fuel = f + 1 := ⟨fuel - 1, by omega⟩
    have h0 := hpre 0 (Nat.succ_pos n)
    rw [Nat.add_zero] at h0
    simp only [capterraStop, Bool.or_eq_false_iff, decide_eq_false_iff_not,
      not_not] at h0
    simp only [capterraLoop]
    rw [if_neg (fun hne => hne h0.1), if_neg h0.2]
    rw [ih (page + 1) f _
      (fun k hk => by
        have h := hpre (k + 1) (by omega)
        rwa [show page + (k + 1) = page + 1 + k by omega] at h)
      (by rwa [show page + (n + 1) = page + 1 + n by omega] at hstop)
      (by omega)]
    simp [pagesConcat, List.append_assoc]

/-- Capterra analogue of `g2Loop_runs`. -/
theorem capterraLoop_runs (fetch : String → CapterraPage)
    (company path : String) (start_d end_d : Date) :
    ∀ (fuel page : Nat) (acc : List Review),
      (∀ k, capterraStop fetch path (page + k) = false) →
      capterraLoop fetch company path start_d end_d fuel page acc = .running := by
  intro fuel
  induction fuel with
  | zero => intro page acc _; rfl
  | succ f ih =>
    intro page acc h
    have h0 := h 0
    rw [Nat.add_zero] at h0
    simp only [capterraStop, Bool.or_eq_false_iff, decide_eq_false_iff_not,
      not_not] at h0
    simp only [capterraLoop]
    rw [if_neg (fun hne => hne h0.1), if_neg h0.2]
    exact ih (page + 1) _ (fun k => by
      have hk := h (k + 1)
      rwa [show page + (k + 1) = page + 1 + k by omega] at hk)

/-- The Capterra loop never produces an uncaught exception. -/
theorem capterraLoop_ne_error (fetch : String → CapterraPage)
    (company path : String) (start_d end_d : Date) :
    ∀ (fuel page : Nat) (acc : List Review) (msg : String),
      capterraLoop fetch company path start_d end_d fuel page acc ≠ .error msg := by
  intro fuel
  induction fuel with
  | zero => intro page acc msg h; exact nomatch h
  | succ f ih =>
    intro page acc msg
    simp only [capterraLoop]
    split
    · exact fun h => nomatch h
    · split
      · exact fun h => nomatch h
      · exact ih (page + 1) _ msg

/-- C1: for every date string in one of the three supported formats that
parses to a calendar date `d`, `in_range date_str start_d end_d` is true
iff `start_d ≤ d ≤ end_d`, inclusively on both bounds. -/
theorem in_range_iff_between (date_str : String) (d start_d end_d : Date)
    (h : parse_date date_str = some d) :
    in_range date_str start_d end_d = true ↔
      (Date.le start_d d = true ∧ Date.le d end_d = true) := by
  simp [in_range, h, Bool.and_eq_true]

theorem in_range_iff_between_witness :
    parse_date "January 5, 2024" = some ⟨2024, 1, 5⟩ ∧
      (in_range "January 5, 2024" ⟨2024, 1, 1⟩ ⟨2024, 12, 31⟩ = true ↔
        (Date.le ⟨2024, 1, 1⟩ ⟨2024, 1, 5⟩ = true ∧
          Date.le ⟨2024, 1, 5⟩ ⟨2024, 12, 31⟩ = true)) :=
  ⟨by decide,
   in_range_iff_between "January 5, 2024" ⟨2024, 1, 5⟩ ⟨2024, 1, 1⟩
     ⟨2024, 12, 31⟩ (by decide)⟩

/-- C2: for every date string no supported format parses, `in_range`
returns true (fail-open: the review is kept) regardless of the string and
of the requested bounds. -/
theorem in_range_fail_open (date_str : String) (start_d end_d : Date)
    (h : parse_date date_str = none) :
    in_range date_str start_d end_d = true := by
  simp [in_range, h]

theorem in_range_fail_open_witness :
    parse_date "not a date" = none ∧
      in_range "not a date" ⟨2024, 1, 1⟩ ⟨2024, 12, 31⟩ = true :=
  ⟨by decide,
   in_range_fail_open "not a date" ⟨2024, 1, 1⟩ ⟨2024, 12, 31⟩ (by decide)⟩

/-- C3: when pages 1..N are success pages each holding at least one review
card and page N+1 returns a non-success status, the G2 and Capterra
extractors return exactly the date-filtered reviews of pages 1..N, in
page-then-card order. -/
theorem scrape_collects_pages_in_order :
    (∀ (fetch : String → G2Page) (company slug : String)
       (start_d end_d : Date) (N fuel : Nat),
      g2_slug_map.lookup (pyLower company) = some slug →
      (∀ k, k < N → (fetch (build_g2_url slug (k + 1))).status_code = 200 ∧
        (fetch (build_g2_url slug (k + 1))).cards ≠ []) →
      (fetch (build_g2_url slug (N + 1))).status_code ≠ 200 →
      N < fuel →
      scrape_g2 fetch company start_d end_d fuel =
        .ok (pagesConcat (fun p => g2PageReviews company start_d end_d
          (fetch (build_g2_url slug p)).cards) 1 N)) ∧
    (∀ (fetch : String → CapterraPage) (company path : String)
       (start_d end_d : Date) (N fuel : Nat),
      capterra_slug_map.lookup (pyLower company) = some path →
      (∀ k, k < N → (fetch (build_capterra_url path (k + 1))).status_code = 200 ∧
        (fetch (build_capterra_url path (k + 1))).cards ≠ []) →
      (fetch (build_capterra_url path (N + 1))).status_code ≠ 200 →
      N < fuel →
      scrape_capterra fetch company start_d end_d fuel =
        .ok (pagesConcat (fun p => capterraPageReviews company start_d end_d
          (fetch (build_capterra_url path p)).cards) 1 N)) := by
  constructor
  · intro fetch company slug start_d end_d N fuel hslug hcontent hstop hfuel
    have h := g2Loop_reaches fetch company slug start_d end_d N 1 fuel []
      (fun k hk => by
        have hc := hcontent k hk
        rw [show (1 : Nat) + k = k + 1 by omega]
        simp only [g2Stop, Bool.or_eq_false_iff, decide_eq_false_iff_not,
          not_not]
        exact ⟨hc.1, hc.2⟩)
      (by
        rw [show (1 : Nat) + N = N + 1 by omega]
        simp only [g2Stop, Bool.or_eq_true, decide_eq_true_eq]
        exact Or.inl hstop)
      hfuel
    simp only [scrape_g2, hslug]
    simpa using h
  · intro fetch company path start_d end_d N fuel hslug hcontent hstop hfuel
    have h := capterraLoop_reaches fetch company path start_d end_d N 1 fuel []
      (fun k hk => by
        have hc := hcontent k hk
        rw [show (1 : Nat) + k = k + 1 by omega]
        simp only [capterraStop, Bool.or_eq_false_iff, decide_eq_false_iff_not,
          not_not]
        exact ⟨hc.1, hc.2⟩)
      (by
        rw [show (1 : Nat) + N = N + 1 by omega]
        simp only [capterraStop, Bool.or_eq_true, decide_eq_true_eq]
        exact Or.inl hstop)
      hfuel
    simp only [scrape_capterra, hslug]
    simpa using h

theorem scrape_collects_pages_in_order_witness :
    scrape_g2 g2FetchEx "Pulse" ⟨2024, 1, 1⟩ ⟨2024, 12, 31⟩ 2 =
      .ok (pagesConcat (fun p => g2PageReviews "Pulse" ⟨2024, 1, 1⟩
        ⟨2024, 12, 31⟩ (g2FetchEx (build_g2_url "pulse" p)).cards) 1 1) ∧
    scrape_capterra capterraFetchEx "Pulse" ⟨2024, 1, 1⟩ ⟨2024, 12, 31⟩ 2 =
      .ok (pagesConcat (fun p => capterraPageReviews "Pulse" ⟨2024, 1, 1⟩
        ⟨2024, 12, 31⟩ (capterraFetchEx (build_capterra_url "12345/Pulse" p)).cards) 1 1) :=
  ⟨scrape_collects_pages_in_order.1 g2FetchEx "Pulse" "pulse"
      ⟨2024, 1, 1⟩ ⟨2024, 12, 31⟩ 1 2 (by decide) (by decide) (by decide) (by decide),
   scrape_collects_pages_in_order.2 capterraFetchEx "Pulse" "12345/Pulse"
      ⟨2024, 1, 1⟩ ⟨2024, 12, 31⟩ 1 2 (by decide) (by decide) (by decide) (by decide)⟩

/-- If pages `page .. page+n-1` are content pages whose cards all extract
successfully and page `page+n` triggers the stopping test, the generic-SaaS
loop returns the accumulated reviews. -/
theorem saasLoop_reaches (fetch : String → SaasPage) (company : String)
    (start_d end_d : Date) :
    ∀ (n page fuel : Nat) (acc : List Review),
      (∀ k, k < n → saasStop fetch company (page + k) = false) →
      (∀ k, k < n → (saasPageReviews company start_d end_d
        (fetch (build_saas_url company (page + k))).cards).isOk = true) →
      saasStop fetch company (page + n) = true →
      n < fuel →
      saasLoop fetch company start_d end_d fuel page acc =
        .ok (acc ++ pagesConcat (fun p => saasPageOk company start_d end_d
          (fetch (build_saas_url company p)).cards) page n) := by
  intro n
  induction n with
  | zero =>
    intro page fuel acc _ _ hstop hfuel
    obtain ⟨f, rfl⟩ : ∃ f, fuel = f + 1 := ⟨fuel - 1, by omega⟩
    rw [Nat.add_zero] at hstop
    simp only [saasStop, Bool.or_eq_true, decide_eq_true_eq] at hstop
    simp only [saasLoop, pagesConcat, List.append_nil]
    rcases hstop with h | h
    · rw [if_pos h]
    · by_cases h2 : (fetch (build_saas_url company page)).status_code ≠ 200
      · rw [if_pos h2]
      · rw [if_neg h2, if_pos h]
  | succ n ih =>
    intro page fuel acc hpre hok hstop hfuel
    obtain ⟨f, rfl⟩ : ∃ f, fuel = f + 1 := ⟨fuel - 1, by omega⟩
    have h0 := hpre 0 (Nat.succ_pos n)
    rw [Nat.add_zero] at h0
    simp only [saasStop, Bool.or_eq_false_iff, decide_eq_false_iff_not,
      not_not] at h0
    have hok0 := hok 0 (Nat.succ_pos n)
    rw [Nat.add_zero] at hok0
    simp only [saasLoop]
    rw [if_neg (fun hne => hne h0.1), if_neg h0.2]
    cases heq : saasPageReviews company start_d end_d
        (fetch (build_saas_url company page)).cards with
    | error e => rw [heq] at hok0; exact nomatch hok0
    | ok rs =>
      simp only [heq]
      rw [ih (page + 1) f _
        (fun k hk => by
          have h := hpre (k + 1) (by omega)
          rwa [show page + (k + 1) = page + 1 + k by omega] at h)
        (fun k hk => by
          have h := hok (k + 1) (by omega)
          rwa [show page + (k + 1) = page + 1 + k by omega] at h)
        (by rwa [show page + (n + 1) = page + 1 + n by omega] at hstop)
        (by omega)]
      simp [pagesConcat, saasPageOk, heq, Except.toOption, List.append_assoc]

/-- If the stopping test never fires and every page's cards extract
successfully, the generic-SaaS loop exhausts any fuel. -/
theorem saasLoop_runs (fetch : String → SaasPage) (company : String)
    (start_d end_d : Date) :
    ∀ (fuel page : Nat) (acc : List Review),
      (∀ k, saasStop fetch company (page + k) = false) →
      (∀ k, (saasPageReviews company start_d end_d
        (fetch (build_saas_url company (page + k))).cards).isOk = true) →
      saasLoop fetch company start_d end_d fuel page acc = .running := by
  intro fuel
  induction fuel with
  | zero => intro page acc _ _; rfl
  | succ f ih =>
    intro page acc h hok
    have h0 := h 0
    rw [Nat.add_zero] at h0
    simp only [saasStop, Bool.or_eq_false_iff, decide_eq_false_iff_not,
      not_not] at h0
    have hok0 := hok 0
    rw [Nat.add_zero] at hok0
    simp only [saasLoop]
    rw [if_neg (fun hne => hne h0.1), if_neg h0.2]
    cases heq : saasPageReviews company start_d end_d
        (fetch (build_saas_url company page)).cards with
    | error e => rw [heq] at hok0; exact nomatch hok0
    | ok rs =>
      simp only [heq]
      exact ih (page + 1) _
        (fun k => by
          have hk := h (k + 1)
          rwa [show page + (k + 1) = page + 1 + k by omega] at hk)
        (fun k => by
          have hk := hok (k + 1)
          rwa [show page + (k + 1) = page + 1 + k by omega] at hk)

/-- C4 counterexample: for the generic-SaaS extractor the claim fails as
stated. `saasFetchBad` serves page 1 successfully with a card whose
elements are missing and returns a non-success status from page 2 on, so
some page does return a non-success status, yet the run raises
(`AttributeError`) instead of terminating with the accumulated reviews. -/
theorem saas_raise_despite_stop_counterexample :
    saasStop saasFetchBad "Pulse" 2 = true ∧
    scrape_saas_example saasFetchBad "Pulse" ⟨2024, 1, 1⟩ ⟨2024, 12, 31⟩ 5 =
      .error "AttributeError: 'NoneType' object has no attribute 'get_text'" := by
  constructor
  · decide
  · decide

/-- C4 (amended): every pagination loop terminates, without raising, and
returns the reviews accumulated from the pages before the first page that
triggers the stopping test (non-success status, or zero cards), whenever
some page triggers it; with no maximum page count, the loop runs forever
otherwise. This holds unconditionally for G2 and Capterra; for the
Generic-SaaS extractor it additionally requires every card on the pages
before the stop to extract successfully, since a missing element there
makes the run raise instead (see the counterexample). -/
theorem pagination_terminates_iff_stop_amended :
    (∀ (fetch : String → G2Page) (company slug : String)
       (start_d end_d : Date),
      g2_slug_map.lookup (pyLower company) = some slug →
      ∀ (hstop : ∃ n, g2Stop fetch slug (n + 1) = true) (fuel : Nat),
        Nat.find hstop < fuel →
        scrape_g2 fetch company start_d end_d fuel =
          .ok (pagesConcat (fun p => g2PageReviews company start_d end_d
            (fetch (build_g2_url slug p)).cards) 1 (Nat.find hstop))) ∧
    (∀ (fetch : String → G2Page) (company slug : String)
       (start_d end_d : Date),
      g2_slug_map.lookup (pyLower company) = some slug →
      (∀ n, g2Stop fetch slug (n + 1) = false) →
      ∀ fuel, scrape_g2 fetch company start_d end_d fuel = .running) ∧
    (∀ (fetch : String → CapterraPage) (company path : String)
       (start_d end_d : Date),
      capterra_slug_map.lookup (pyLower company) = some path →
      ∀ (hstop : ∃ n, capterraStop fetch path (n + 1) = true) (fuel : Nat),
        Nat.find hstop < fuel →
        scrape_capterra fetch company start_d end_d fuel =
          .ok (pagesConcat (fun p => capterraPageReviews company start_d end_d
            (fetch (build_capterra_url path p)).cards) 1 (Nat.find hstop))) ∧
    (∀ (fetch : String → CapterraPage) (company path : String)
       (start_d end_d : Date),
      capterra_slug_map.lookup (pyLower company) = some path →
      (∀ n, capterraStop fetch path (n + 1) = false) →
      ∀ fuel, scrape_capterra fetch company start_d end_d fuel = .running) ∧
    (∀ (fetch : String → SaasPage) (company : String) (start_d end_d : Date)
       (hstop : ∃ n, saasStop fetch company (n + 1) = true),
      (∀ k, k < Nat.find hstop → (saasPageReviews company start_d end_d
        (fetch (build_saas_url company (k + 1))).cards).isOk = true) →
      ∀ fuel, Nat.find hstop < fuel →
        scrape_saas_example fetch company start_d end_d fuel =
          .ok (pagesConcat (fun p => saasPageOk company start_d end_d
            (fetch (build_saas_url company p)).cards) 1 (Nat.find hstop))) ∧
    (∀ (fetch : String → SaasPage) (company : String) (start_d end_d : Date),
      (∀ n, saasStop fetch company (n + 1) = false) →
      (∀ n, (saasPageReviews company start_d end_d
        (fetch (build_saas_url company (n + 1))).cards).isOk = true) →
      ∀ fuel, scrape_saas_example fetch company start_d end_d fuel = .running) := by
  refine ⟨?_, ?_, ?_, ?_, ?_, ?_⟩
  · intro fetch company slug start_d end_d hslug hstop fuel hfuel
    have h := g2Loop_reaches fetch company slug start_d end_d
      (Nat.find hstop) 1 fuel []
      (fun k hk => by
        have hm := Nat.find_min hstop hk
        rw [show (1 : Nat) + k = k + 1 by omega]
        simpa using hm)
      (by
        rw [show (1 : Nat) + Nat.find hstop = Nat.find hstop + 1 by omega]
        exact Nat.find_spec hstop)
      hfuel
    simp only [scrape_g2, hslug]
    simpa using h
  · intro fetch company slug start_d end_d hslug hnostop fuel
    simp only [scrape_g2, hslug]
    exact g2Loop_runs fetch company slug start_d end_d fuel 1 []
      (fun k => by rw [show (1 : Nat) + k = k + 1 by omega]; exact hnostop k)
  · intro fetch company path start_d end_d hslug hstop fuel hfuel
    have h := capterraLoop_reaches fetch company path start_d end_d
      (Nat.find hstop) 1 fuel []
      (fun k hk => by
        have hm := Nat.find_min hstop hk
        rw [show (1 : Nat) + k = k + 1 by omega]
        simpa using hm)
      (by
        rw [show (1 : Nat) + Nat.find hstop = Nat.find hstop + 1 by omega]
        exact Nat.find_spec hstop)
      hfuel
    simp only [scrape_capterra, hslug]
    simpa using h
  · intro fetch company path start_d end_d hslug hnostop fuel
    simp only [scrape_capterra, hslug]
    exact capterraLoop_runs fetch company path start_d end_d fuel 1 []
      (fun k => by rw [show (1 : Nat) + k = k + 1 by omega]; exact hnostop k)
  · intro fetch company start_d end_d hstop hok fuel hfuel
    have h := saasLoop_reaches fetch company start_d end_d
      (Nat.find hstop) 1 fuel []
      (fun k hk => by
        have hm := Nat.find_min hstop hk
        rw [show (1 : Nat) + k = k + 1 by omega]
        simpa using hm)
      (fun k hk => by
        have hm := hok k hk
        rwa [show (1 : Nat) + k = k + 1 by omega])
      (by
        rw [show (1 : Nat) + Nat.find hstop = Nat.find hstop + 1 by omega]
        exact Nat.find_spec hstop)
      hfuel
    simp only [scrape_saas_example]
    simpa using h
  · intro fetch company start_d end_d hnostop hok fuel
    simp only [scrape_saas_example]
    exact saasLoop_runs fetch company start_d end_d fuel 1 []
      (fun k => by rw [show (1 : Nat) + k = k + 1 by omega]; exact hnostop k)
      (fun k => by rw [show (1 : Nat) + k = k + 1 by omega]; exact hok k)

theorem pagination_terminates_iff_stop_amended_witness :
    scrape_g2 g2Fetch404 "Pulse" ⟨2024, 1, 1⟩ ⟨2024, 12, 31⟩ 1 = .ok [] ∧
    scrape_g2 g2FetchLive "Pulse" ⟨2024, 1, 1⟩ ⟨2024, 12, 31⟩ 7 = .running ∧
    scrape_capterra capterraFetch404 "Pulse" ⟨2024, 1, 1⟩ ⟨2024, 12, 31⟩ 1 = .ok [] ∧
    scrape_capterra capterraFetchLive "Pulse" ⟨2024, 1, 1⟩ ⟨2024, 12, 31⟩ 7 = .running ∧
    scrape_saas_example saasFetch404 "Pulse" ⟨2024, 1, 1⟩ ⟨2024, 12, 31⟩ 1 = .ok [] ∧
    scrape_saas_example saasFetchLive "Pulse" ⟨2024, 1, 1⟩ ⟨2024, 12, 31⟩ 7 = .running := by
  refine ⟨?_, ?_, ?_, ?_, ?_, ?_⟩
  · have hst : ∃ n, g2Stop g2Fetch404 "pulse" (n + 1) = true := ⟨0, by decide⟩
    have hfz : Nat.find hst = 0 := by rw [Nat.find_eq_zero]; decide
    have h := pagination_terminates_iff_stop_amended.1 g2Fetch404 "Pulse"
      "pulse" ⟨2024, 1, 1⟩ ⟨2024, 12, 31⟩ (by decide) hst 1 (by rw [hfz]; decide)
    rw [hfz] at h
    simpa [pagesConcat] using h
  · exact pagination_terminates_iff_stop_amended.2.1 g2FetchLive "Pulse"
      "pulse" ⟨2024, 1, 1⟩ ⟨2024, 12, 31⟩ (by decide) (fun n => rfl) 7
  · have hst : ∃ n, capterraStop capterraFetch404 "12345/Pulse" (n + 1) = true :=
      ⟨0, by decide⟩
    have hfz : Nat.find hst = 0 := by rw [Nat.find_eq_zero]; decide
    have h := pagination_terminates_iff_stop_amended.2.2.1 capterraFetch404
      "Pulse" "12345/Pulse" ⟨2024, 1, 1⟩ ⟨2024, 12, 31⟩ (by decide) hst 1
      (by rw [hfz]; decide)
    rw [hfz] at h
    simpa [pagesConcat] using h
  · exact pagination_terminates_iff_stop_amended.2.2.2.1 capterraFetchLive
      "Pulse" "12345/Pulse" ⟨2024, 1, 1⟩ ⟨2024, 12, 31⟩ (by decide)
      (fun n => rfl) 7
  · have hst : ∃ n, saasStop saasFetch404 "Pulse" (n + 1) = true := ⟨0, by decide⟩
    have hfz : Nat.find hst = 0 := by rw [Nat.find_eq_zero]; decide
    have h := pagination_terminates_iff_stop_amended.2.2.2.2.1 saasFetch404
      "Pulse" ⟨2024, 1, 1⟩ ⟨2024, 12, 31⟩ hst
      (fun k hk => absurd (hfz ▸ hk) (Nat.not_lt_zero k)) 1 (by rw [hfz]; decide)
    rw [hfz] at h
    simpa [pagesConcat] using h
  · exact pagination_terminates_iff_stop_amended.2.2.2.2.2 saasFetchLive
      "Pulse" ⟨2024, 1, 1⟩ ⟨2024, 12, 31⟩ (fun n => rfl) (fun n => rfl) 7

/-- C5: in the G2 and Capterra extractors, a card whose rating element is
absent or whose rating content fails numeric parsing yields a `Review`
with rating 0.0 while every other field is still populated from the card;
and the parse failure never aborts the run (once the company is
configured, these two extractors can never produce an error outcome). -/
theorem rating_failure_defaults_zero :
    (∀ (company : String) (card : G2Card),
      (card.rating_el = none ∨
        ∃ m c, card.rating_el = some m ∧ m.content = some c ∧ pyFloat c = none) →
      (g2Review company card).rating = 0 ∧
      (g2Review company card).title = optText card.title_el ∧
      (g2Review company card).date = optText card.date_el ∧
      (g2Review company card).reviewer_name = optText card.user_el ∧
      (g2Review company card).review_text = optText card.body_el ∧
      (g2Review company card).source = "g2" ∧
      (g2Review company card).company = company) ∧
    (∀ (company : String) (card : CapterraCard),
      (card.rating_el = none ∨
        ∃ t, card.rating_el = some t ∧ pyFloat (pyStrip t) = none) →
      (capterraReview company card).rating = 0 ∧
      (capterraReview company card).title = optText card.title_el ∧
      (capterraReview company card).date = optText card.date_el ∧
      (capterraReview company card).reviewer_name = optText card.user_el ∧
      (capterraReview company card).review_text = optText card.body_el ∧
      (capterraReview company card).source = "capterra" ∧
      (capterraReview company card).company = company) ∧
    (∀ (fetch : String → G2Page) (company slug : String)
       (start_d end_d : Date) (fuel : Nat) (msg : String),
      g2_slug_map.lookup (pyLower company) = some slug →
      scrape_g2 fetch company start_d end_d fuel ≠ .error msg) ∧
    (∀ (fetch : String → CapterraPage) (company path : String)
       (start_d end_d : Date) (fuel : Nat) (msg : String),
      capterra_slug_map.lookup (pyLower company) = some path →
      scrape_capterra fetch company start_d end_d fuel ≠ .error msg) := by
  refine ⟨?_, ?_, ?_, ?_⟩
  · intro company card h
    refine ⟨?_, rfl, rfl, rfl, rfl, rfl, rfl⟩
    rcases h with h | ⟨m, c, hm, hc, hp⟩
    · simp [g2Review, g2Rating, h]
    · simp [g2Review, g2Rating, hm, hc, hp]
  · intro company card h
    refine ⟨?_, rfl, rfl, rfl, rfl, rfl, rfl⟩
    rcases h with h | ⟨t, ht, hp⟩
    · simp [capterraReview, capterraRating, h]
    · simp [capterraReview, capterraRating, ht, hp]
  · intro fetch company slug start_d end_d fuel msg hslug
    simp only [scrape_g2, hslug]
    exact g2Loop_ne_error fetch company slug start_d end_d fuel 1 [] msg
  · intro fetch company path start_d end_d fuel msg hslug
    simp only [scrape_capterra, hslug]
    exact capterraLoop_ne_error fetch company path start_d end_d fuel 1 [] msg

theorem rating_failure_defaults_zero_witness :
    (g2Review "Pulse" g2CardNoRating).rating = 0 ∧
    (capterraReview "Pulse" capterraCardBadRating).rating = 0 ∧
    scrape_g2 g2Fetch404 "Pulse" ⟨2024, 1, 1⟩ ⟨2024, 12, 31⟩ 3 ≠ .error "boom" ∧
    scrape_capterra capterraFetch404 "Pulse" ⟨2024, 1, 1⟩ ⟨2024, 12, 31⟩ 3 ≠
      .error "boom" :=
  ⟨(rating_failure_defaults_zero.1 "Pulse" g2CardNoRating (Or.inl rfl)).1,
   (rating_failure_defaults_zero.2.1 "Pulse" capterraCardBadRating
     (Or.inr ⟨"five stars", rfl, by decide⟩)).1,
   rating_failure_defaults_zero.2.2.1 g2Fetch404 "Pulse" "pulse"
     ⟨2024, 1, 1⟩ ⟨2024, 12, 31⟩ 3 "boom" (by decide),
   rating_failure_defaults_zero.2.2.2 capterraFetch404 "Pulse" "12345/Pulse"
     ⟨2024, 1, 1⟩ ⟨2024, 12, 31⟩ 3 "boom" (by decide)⟩

/-- If any card on a page fails extraction, the whole page's card loop
fails. -/
theorem saasPageReviews_error_of_mem (company : String) (start_d end_d : Date) :
    ∀ (cards : List SaasCard) (card : SaasCard), card ∈ cards →
      (∃ m, saasCardReview company card = .error m) →
      ∃ m, saasPageReviews company start_d end_d cards = .error m := by
  intro cards
  induction cards with
  | nil => intro card h; exact absurd h (List.not_mem_nil card)
  | cons hd tl ih =>
    rintro card hmem ⟨m, hm⟩
    rcases List.mem_cons.mp hmem with rfl | hmem2
    · exact ⟨m, by simp [saasPageReviews, hm]⟩
    · cases hc : saasCardReview company hd with
      | error e => exact ⟨e, by simp [saasPageReviews, hc]⟩
      | ok r =>
        obtain ⟨m2, hm2⟩ := ih card hmem2 ⟨m, hm⟩
        exact ⟨m2, by simp [saasPageReviews, hc, hm2]⟩

/-- C6: in the Generic-SaaS extractor, a card missing its title, date,
rating, reviewer-name or body element makes field extraction raise, and
when such a card sits on a fetched success page the whole run aborts with
that error, instead of defaulting the field as the other extractors do. -/
theorem saas_missing_element_fatal :
    (∀ (company : String) (card : SaasCard),
      (card.title_el = none ∨ card.date_el = none ∨ card.rating_el = none ∨
        card.reviewer_el = none ∨ card.body_el = none) →
      ∃ msg, saasCardReview company card = .error msg) ∧
    (∀ (fetch : String → SaasPage) (company : String) (start_d end_d : Date)
       (fuel : Nat) (card : SaasCard),
      card ∈ (fetch (build_saas_url company 1)).cards →
      (card.title_el = none ∨ card.date_el = none ∨ card.rating_el = none ∨
        card.reviewer_el = none ∨ card.body_el = none) →
      (fetch (build_saas_url company 1)).status_code = 200 →
      0 < fuel →
      ∃ msg, scrape_saas_example fetch company start_d end_d fuel =
        .error msg) := by
  have part1 : ∀ (company : String) (card : SaasCard),
      (card.title_el = none ∨ card.date_el = none ∨ card.rating_el = none ∨
        card.reviewer_el = none ∨ card.body_el = none) →
      ∃ msg, saasCardReview company card = .error msg := by
    intro company card h
    obtain ⟨tEl, dEl, rEl, nEl, bEl⟩ := card
    cases tEl with
    | none => exact ⟨_, rfl⟩
    | some t =>
      cases dEl with
      | none => exact ⟨_, rfl⟩
      | some dt =>
        cases rEl with
        | none => exact ⟨_, rfl⟩
        | some rel =>
          obtain ⟨ds⟩ := rel
          cases ds with
          | none => exact ⟨_, rfl⟩
          | some sc =>
            cases hps : pyFloat sc with
            | none =>
              exact ⟨"ValueError: could not convert string to float",
                by simp [saasCardReview, hps]⟩
            | some q =>
              cases nEl with
              | none =>
                exact ⟨"AttributeError: 'NoneType' object has no attribute 'get_text'",
                  by simp [saasCardReview, hps]⟩
              | some rn =>
                cases bEl with
                | none =>
                  exact ⟨"AttributeError: 'NoneType' object has no attribute 'get_text'",
                    by simp [saasCardReview, hps]⟩
                | some bd => simp at h
  refine ⟨part1, ?_⟩
  intro fetch company start_d end_d fuel card hmem hbad h200 hfuel
  obtain ⟨f, rfl⟩ : ∃ f, fuel = f + 1 := ⟨fuel - 1, by omega⟩
  obtain ⟨m, hm⟩ := saasPageReviews_error_of_mem company start_d end_d
    (fetch (build_saas_url company 1)).cards card hmem (part1 company card hbad)
  refine ⟨m, ?_⟩
  simp only [scrape_saas_example, saasLoop]
  rw [if_neg (fun hne => hne h200), if_neg (List.ne_nil_of_mem hmem)]
  simp [hm]

theorem saas_missing_element_fatal_witness :
    (∃ msg, saasCardReview "Pulse" saasCardBad = .error msg) ∧
    (∃ msg, scrape_saas_example saasFetchBad "Pulse" ⟨2024, 1, 1⟩
      ⟨2024, 12, 31⟩ 5 = .error msg) :=
  ⟨saas_missing_element_fatal.1 "Pulse" saasCardBad (Or.inl rfl),
   saas_missing_element_fatal.2 saasFetchBad "Pulse" ⟨2024, 1, 1⟩
     ⟨2024, 12, 31⟩ 5 saasCardBad (by decide) (Or.inl rfl) (by decide)
     (by decide)⟩

/-- C7: a company whose lowercased form is missing from the G2 or Capterra
mapping makes the extractor fail with the configuration `ValueError`
independently of the fetcher — no page is consulted — whereas once the
mapping resolves, no outcome is ever an error: network/HTTP failures only
stop pagination. (The Generic-SaaS extractor has no mapping and is not
subject to this claim.) -/
theorem config_gap_aborts_run :
    (∀ (company : String),
      g2_slug_map.lookup (pyLower company) = none →
      ∀ (fetch : String → G2Page) (start_d end_d : Date) (fuel : Nat),
        scrape_g2 fetch company start_d end_d fuel =
          .error ("No G2 slug configured for '" ++ company ++
            "'. Update slug_map in scrape_g2().")) ∧
    (∀ (company : String),
      capterra_slug_map.lookup (pyLower company) = none →
      ∀ (fetch : String → CapterraPage) (start_d end_d : Date) (fuel : Nat),
        scrape_capterra fetch company start_d end_d fuel =
          .error ("No Capterra path configured for '" ++ company ++
            "'. Update slug_map in scrape_capterra().")) ∧
    (∀ (fetch : String → G2Page) (company slug : String)
       (start_d end_d : Date) (fuel : Nat) (msg : String),
      g2_slug_map.lookup (pyLower company) = some slug →
      scrape_g2 fetch company start_d end_d fuel ≠ .error msg) ∧
    (∀ (fetch : String → CapterraPage) (company path : String)
       (start_d end_d : Date) (fuel : Nat) (msg : String),
      capterra_slug_map.lookup (pyLower company) = some path →
      scrape_capterra fetch company start_d end_d fuel ≠ .error msg) := by
  refine ⟨?_, ?_, ?_, ?_⟩
  · intro company h fetch start_d end_d fuel
    simp [scrape_g2, h]
  · intro company h fetch start_d end_d fuel
    simp [scrape_capterra, h]
  · intro fetch company slug start_d end_d fuel msg h
    simp only [scrape_g2, h]
    exact g2Loop_ne_error fetch company slug start_d end_d fuel 1 [] msg
  · intro fetch company path start_d end_d fuel msg h
    simp only [scrape_capterra, h]
    exact capterraLoop_ne_error fetch company path start_d end_d fuel 1 [] msg

theorem config_gap_aborts_run_witness :
    scrape_g2 g2Fetch404 "Ghost" ⟨2024, 1, 1⟩ ⟨2024, 12, 31⟩ 3 =
      .error ("No G2 slug configured for '" ++ "Ghost" ++
        "'. Update slug_map in scrape_g2().") ∧
    scrape_capterra capterraFetch404 "Ghost" ⟨2024, 1, 1⟩ ⟨2024, 12, 31⟩ 3 =
      .error ("No Capterra path configured for '" ++ "Ghost" ++
        "'. Update slug_map in scrape_capterra().") ∧
    scrape_g2 g2Fetch404 "Pulse" ⟨2024, 1, 1⟩ ⟨2024, 12, 31⟩ 3 ≠
      .error "boom" ∧
    scrape_capterra capterraFetch404 "Pulse" ⟨2024, 1, 1⟩ ⟨2024, 12, 31⟩ 3 ≠
      .error "boom" :=
  ⟨config_gap_aborts_run.1 "Ghost" (by decide) g2Fetch404 ⟨2024, 1, 1⟩
     ⟨2024, 12, 31⟩ 3,
   config_gap_aborts_run.2.1 "Ghost" (by decide) capterraFetch404
     ⟨2024, 1, 1⟩ ⟨2024, 12, 31⟩ 3,
   config_gap_aborts_run.2.2.1 g2Fetch404 "Pulse" "pulse" ⟨2024, 1, 1⟩
     ⟨2024, 12, 31⟩ 3 "boom" (by decide),
   config_gap_aborts_run.2.2.2 capterraFetch404 "Pulse" "12345/Pulse"
     ⟨2024, 1, 1⟩ ⟨2024, 12, 31⟩ 3 "boom" (by decide)⟩

/-- Single-character `str.replace` is a character map. -/
theorem pyReplaceChars_eq_map (pat rep : Char) :
    ∀ cs : List Char, pyReplaceChars pat rep cs =
      cs.map fun c => if c = pat then rep else c := by
  intro cs
  induction cs with
  | nil => rfl
  | cons c cs ih =>
    simp only [pyReplaceChars, List.map_cons, ih]
    congr 1
    by_cases hc : c = pat <;> simp [hc]

/-- C8: the output filename is the lowercased company with each space
replaced by an underscore, followed by `_<source>_reviews.json`; in
particular "Acme Corp" with source "capterra" yields
`acme_corp_capterra_reviews.json`. -/
theorem write_json_fname_correct :
    write_json_fname "Acme Corp" "capterra" = "acme_corp_capterra_reviews.json" ∧
    ∀ (company source : String),
      write_json_fname company source = specFilename company source := by
  refine ⟨by decide, ?_⟩
  intro company source
  simp only [write_json_fname, specFilename, pyReplaceChar,
    pyReplaceChars_eq_map]

/-- C9: serializing any review list with the Output Writer and parsing the
written document back yields the same reviews: a top-level array with the
same length and order whose elements carry exactly the seven specified
keys with the fields' values (the strict spec-side reader succeeds and
returns the original list). -/
theorem write_json_roundtrip : ∀ (reviews : List Review),
    specReadReviews (write_json_value reviews) = some reviews := by
  intro reviews
  simp only [specReadReviews, write_json_value]
  induction reviews with
  | nil => rfl
  | cons r rs ih =>
    simp only [List.map_cons, specReadList]
    rw [show specReadReview (.jobj (asdictReview r)) = some r from rfl]
    simp only [write_json_value] at ih
    rw [ih]

/-- C10: the Capterra URL builder special-cases page 1 (bare reviews URL,
no query string) and appends `?page=<n>` for every later page, while the
G2 and Generic-SaaS builders append the page number for every page,
page 1 included. -/
theorem url_builders_page_numbering :
    (∀ product_path : String, build_capterra_url product_path 1 =
      "https://www.capterra.com/p/" ++ product_path ++ "/reviews/") ∧
    (∀ (product_path : String) (page : Nat), 1 < page →
      build_capterra_url product_path page =
        "https://www.capterra.com/p/" ++ product_path ++ "/reviews/" ++
          "?page=" ++ toString page) ∧
    (∀ (product_slug : String) (page : Nat), build_g2_url product_slug page =
      "https://www.g2.com/products/" ++ product_slug ++ "/reviews?page=" ++
        toString page) ∧
    (∀ (company : String) (page : Nat), build_saas_url company page =
      saas_base_url company ++ toString page) := by
  refine ⟨?_, ?_, ?_, ?_⟩
  · intro p; rfl
  · intro p page h
    have hne : (page == 1) = false := by simp; omega
    simp [build_capterra_url, hne]
  · intro s page; rfl
  · intro c page; rfl

theorem url_builders_page_numbering_witness :
    build_capterra_url "12345/Pulse" 1 =
      "https://www.capterra.com/p/" ++ "12345/Pulse" ++ "/reviews/" ∧
    build_capterra_url "12345/Pulse" 3 =
      "https://www.capterra.com/p/" ++ "12345/Pulse" ++ "/reviews/" ++
        "?page=" ++ toString 3 ∧
    build_g2_url "pulse" 1 =
      "https://www.g2.com/products/" ++ "pulse" ++ "/reviews?page=" ++
        toString 1 ∧
    build_saas_url "Pulse" 1 = saas_base_url "Pulse" ++ toString 1 :=
  ⟨url_builders_page_numbering.1 "12345/Pulse",
   url_builders_page_numbering.2.1 "12345/Pulse" 3 (by decide),
   url_builders_page_numbering.2.2.1 "pulse" 1,
   url_builders_page_numbering.2.2.2 "Pulse" 1⟩

end ReviewScraper
